import Mathlib

/-!
Shallow embedding of the trend-acquisition pipeline in
`services/trend-service/pytrends_fetch_DDONG.py` and
`services/trend-service/pytrends_fetch.py`.

Tabular responses from pytrends (pandas DataFrames) are modelled as an
ordered list of column names plus an ordered list of rows; each cell
access either raises, yields no value (None), or yields a Python value,
of which we keep its string rendering `str(v)` and its truthiness
`bool(v)`.  Network calls are modelled by oracles (`TierResult`,
`Except`-valued outcomes) supplied as parameters to the embedded
functions; each embedded `main` returns the process exit code, the list
of documents written to stdout, and the list of network calls attempted.
-/

/-- Python's `str.strip()`: drop leading and trailing whitespace.
Implemented structurally over the character list so that it evaluates
by kernel reduction. -/
def pyStrip (s : String) : String :=
  ⟨((s.data.dropWhile Char.isWhitespace).reverse.dropWhile Char.isWhitespace).reverse⟩

/-- A Python scalar value as observed by the extraction code: its
`str(v)` rendering and its `bool(v)` truthiness. -/
structure PyVal where
  str : String
  truthy : Bool
deriving DecidableEq

/-- Outcome of accessing one column of one row (`row.get(c)` /
`row[c]`): the access may raise, return None, or return a value. -/
inductive CellAccess where
  | raises
  | missing
  | val (v : PyVal)
deriving DecidableEq

/-- A DataFrame row: an association list from column name to the
outcome of accessing that column. Columns not listed behave as
`missing` under `row.get`. -/
abbrev Row := List (String × CellAccess)

/-- `row.get(c)` for our row model (pandas `Series.get`: None when the
label is absent). -/
def rowGet : Row → String → CellAccess
  | [], _ => CellAccess.missing
  | (c, a) :: rest, c0 => if c = c0 then a else rowGet rest c0

/-- A pandas DataFrame: ordered column names and ordered rows. -/
structure DataFrame where
  cols : List String
  rows : List Row
deriving DecidableEq

/-- `df.empty` (pandas): true when either axis has length zero. -/
def dfEmpty (df : DataFrame) : Bool :=
  df.rows.isEmpty || df.cols.isEmpty

/-- Candidate-column list of `_safe_extract_keywords_from_df`
(pytrends_fetch_DDONG.py lines 71-76): the preferred names
`query`, `title`, `keyword` that are present, in that order, then the
first column as fallback. -/
def candidateCols (cols : List String) : List String :=
  (["query", "title", "keyword"].filter (fun c => c ∈ cols)) ++
    (match cols with
     | [] => []
     | c :: _ => [c])

/-- The inner candidate loop of `_safe_extract_keywords_from_df`
(lines 80-89): `kw` is the running value of the Python variable `kw`
(`none` = Python `None`); a raising or absent access leaves `kw`
unchanged; a truthy value sets `kw = str(v).strip()` and breaks when
that is non-empty. -/
def rowLoop (r : Row) : List String → Option String → Option String
  | [], kw => kw
  | c :: rest, kw =>
      match rowGet r c with
      | CellAccess.val v =>
          if v.truthy then
            if pyStrip v.str = "" then rowLoop r rest (some (pyStrip v.str))
            else some (pyStrip v.str)
          else rowLoop r rest kw
      | _ => rowLoop r rest kw

/-- Per-row result of the extractor's loop body: the row contributes a
keyword exactly when the loop left `kw` truthy (line 90-91). -/
def rowKeyword (r : Row) (cands : List String) : Option String :=
  match rowLoop r cands none with
  | some kw => if kw = "" then none else some kw
  | none => none

/-- The seen-set deduplication loop at the end of
`_safe_extract_keywords_from_df` (lines 93-100), with the Python set
`seen` modelled as the list of values added so far. -/
def dedupGo : List String → List String → List String
  | [], _ => []
  | k :: rest, seen =>
      if k ∈ seen then dedupGo rest seen
      else k :: dedupGo rest (k :: seen)

/-- The Deduplicator: the lines-93-100 loop started with an empty seen
set. -/
def dedupKeywords (l : List String) : List String :=
  dedupGo l []

/-- Specification-side deduplicator, written from the spec's words
("return the ordered list with exact-duplicate values removed, keeping
the first occurrence's position"): keep the head, delete its later
duplicates, recurse.  Used only to compare with the code's
`dedupKeywords`. -/
def specDedup : List String → List String
  | [] => []
  | a :: l => a :: specDedup (l.filter (fun x => x ≠ a))
termination_by l => l.length
decreasing_by
  simp only [List.length_cons]
  exact Nat.lt_succ_of_le (List.length_filter_le _ _)

/-- `_safe_extract_keywords_from_df` (lines 58-100): None or empty
DataFrame yields `[]`; otherwise per-row extraction over the candidate
columns followed by the in-function deduplication. -/
def safeExtractKeywordsFromDf : Option DataFrame → List String
  | none => []
  | some df =>
      if dfEmpty df then []
      else
        dedupKeywords (df.rows.filterMap (fun r => rowKeyword r (candidateCols df.cols)))

/-- The raw per-row keyword list of a DataFrame, before the extractor's
deduplication step (the contents of the Python variable `out` at line
92). -/
def rowKeywords (df : DataFrame) : List String :=
  if dfEmpty df then []
  else df.rows.filterMap (fun r => rowKeyword r (candidateCols df.cols))

/-- Outcome of one tier's network call against pytrends: the call may
raise, or return a DataFrame (possibly None). -/
inductive TierResult where
  | err (e : String)
  | ok (df : Option DataFrame)
deriving DecidableEq

/-- Oracle for the three standard tiers of `fetch_trending_keywords`
(lines 103-147): the outcome each pytrends call would produce in this
run. -/
structure TrendSource where
  realtime : TierResult
  trending : TierResult
  daily : TierResult
deriving DecidableEq

/-- Diagnostic events written to stderr by `fetch_trending_keywords`:
the attempt line, the failure line carrying the attempt's name and the
error, the success line with the keyword count, and the empty-result
line. -/
inductive LogEvent where
  | attempt (name : String)
  | failure (name : String) (err : String)
  | success (name : String) (count : Nat)
  | emptyResult (name : String)
deriving DecidableEq

/-- A network call against the external source, with the identifiers it
was invoked with. -/
inductive NetCall where
  | realtimeTrendingSearches (pn : String)
  | trendingSearches (pn : String)
  | dailySearchTrends (pn : String)
  | youtubeRelatedQueries (geo : String) (days : Int)
  | v1RelatedQueries (geo : String) (daysRaw : String)
deriving DecidableEq

/-- What one tier of `fetch_trending_keywords` yields: `none` when the
call raised or the extracted list was empty, otherwise the non-empty
extracted list (the `if kws:` tests at lines 114, 126, 140). -/
def tierYield : TierResult → Option (List String)
  | TierResult.err _ => none
  | TierResult.ok df =>
      let kws := safeExtractKeywordsFromDf df
      if kws.isEmpty then none else some kws

/-- The stderr lines one tier attempt produces (lines 110-119 and the
two analogous blocks). -/
def attemptLogs (name : String) (res : TierResult) : List LogEvent :=
  match res with
  | TierResult.err e => [LogEvent.attempt name, LogEvent.failure name e]
  | TierResult.ok df =>
      let kws := safeExtractKeywordsFromDf df
      if kws.isEmpty then [LogEvent.attempt name, LogEvent.emptyResult name]
      else [LogEvent.attempt name, LogEvent.success name kws.length]

/-- Result of a run of the Tiered Fetch Strategy: the keyword list, the
name of the tier that produced it (`"none"` when all tiers were
exhausted), the diagnostics, and the network calls attempted. -/
structure FetchOutcome where
  keywords : List String
  source : String
  logs : List LogEvent
  net : List NetCall
deriving DecidableEq

/-- `fetch_trending_keywords` (lines 103-147): try
`realtime_trending_searches`, then `trending_searches`, then
`daily_search_trends`; a raised error is logged and the next tier is
tried; stop at the first tier whose extraction is non-empty; if all
tiers exhaust, return `[]` with the sentinel source `"none"`. -/
def fetchTrendingKeywords (src : TrendSource) (pn : String) : FetchOutcome :=
  let l1 := attemptLogs "realtime_trending_searches" src.realtime
  let c1 := NetCall.realtimeTrendingSearches pn
  match tierYield src.realtime with
  | some kws => ⟨kws, "realtime_trending_searches", l1, [c1]⟩
  | none =>
    let l2 := attemptLogs "trending_searches" src.trending
    let c2 := NetCall.trendingSearches pn
    match tierYield src.trending with
    | some kws => ⟨kws, "trending_searches", l1 ++ l2, [c1, c2]⟩
    | none =>
      let l3 := attemptLogs "daily_search_trends" src.daily
      let c3 := NetCall.dailySearchTrends pn
      match tierYield src.daily with
      | some kws => ⟨kws, "daily_search_trends", l1 ++ l2 ++ l3, [c1, c2, c3]⟩
      | none => ⟨[], "none", l1 ++ l2 ++ l3, [c1, c2, c3]⟩

/-- The row loop of `fetch_youtube_like_keywords_experimental`
(lines 168-172): `row.get("query")` is not guarded by a try, so a
raising access propagates as an exception; a truthy value contributes
`str(q).strip()`. -/
def youtubeRowsLoop : List Row → Except String (List String)
  | [] => Except.ok []
  | r :: rest =>
      match rowGet r "query" with
      | CellAccess.raises => Except.error "row access raised"
      | CellAccess.missing => youtubeRowsLoop rest
      | CellAccess.val v =>
          if v.truthy then
            match youtubeRowsLoop rest with
            | Except.error e => Except.error e
            | Except.ok ks => Except.ok (pyStrip v.str :: ks)
          else youtubeRowsLoop rest

/-- The deduplication loop of the experimental function (lines
174-180): `if k and k not in seen`, so empty strings are dropped
here as well. -/
def dedupNonEmptyGo : List String → List String → List String
  | [], _ => []
  | k :: rest, seen =>
      if k ≠ "" ∧ k ∉ seen then k :: dedupNonEmptyGo rest (k :: seen)
      else dedupNonEmptyGo rest seen

/-- `fetch_youtube_like_keywords_experimental` (lines 150-183), with
the network interaction (`build_payload` + `related_queries` +
`rq.get(seed, {}).get("rising")`) supplied as an oracle: an exception
from the network propagates; an absent or empty rising DataFrame gives
`[]`; otherwise the rows are scanned for `query` values, which are then
deduplicated keeping non-empty first occurrences. -/
def fetchYoutubeLikeKeywordsExperimental
    (rising : Except String (Option DataFrame)) : Except String (List String) :=
  match rising with
  | Except.error e => Except.error e
  | Except.ok none => Except.ok []
  | Except.ok (some df) =>
      if dfEmpty df then Except.ok []
      else
        match youtubeRowsLoop df.rows with
        | Except.error e => Except.error e
        | Except.ok kws => Except.ok (dedupNonEmptyGo kws [])

/-- The keyword list `main` ends up with after the optional youtube
attempt (pytrends_fetch_DDONG.py lines 215-225): an exception is caught
and leaves `keywords = []`. -/
def ytKeywordsOrEmpty : Except String (List String) → List String
  | Except.error _ => []
  | Except.ok ks => ks

/-- Python `int(s)`: strip whitespace, optional sign, at least one
digit; anything else raises ValueError (modelled as `none`). -/
def pyIntParse? (s : String) : Option Int :=
  let t := (pyStrip s).data
  let (neg, core) :=
    match t with
    | '-' :: rest => (true, rest)
    | '+' :: rest => (false, rest)
    | _ => (false, t)
  if core ≠ [] ∧ core.all Char.isDigit then
    let n : Nat := core.foldl (fun acc c => 10 * acc + (c.toNat - 48)) 0
    if neg then some (-(n : Int)) else some (n : Int)
  else none

/-- One element of the `items` array of the output JSON. -/
structure Item where
  date : String
  keyword : String
  traffic : String
deriving DecidableEq

/-- A value of the `keywords` array: the DDONG variant appends keyword
strings, while pytrends_fetch.py line 87 appends whole item objects, so
the JSON array may hold either. -/
inductive JVal where
  | str (s : String)
  | item (it : Item)
deriving DecidableEq

/-- The JSON document printed to stdout. -/
structure ResultDoc where
  region : String
  days : Int
  items : List Item
  keywords : List JVal
deriving DecidableEq

/-- Observable behaviour of one process run: the exit code, the
documents written to stdout, and the network calls attempted. -/
structure RunResult where
  exitCode : Nat
  stdout : List ResultDoc
  net : List NetCall
deriving DecidableEq

/-- `REGION_GEO_MAP` of pytrends_fetch_DDONG.py line 43 (identical to
the map in pytrends_fetch.py lines 30-34). -/
def REGION_GEO_MAP : List (String × String) :=
  [("KR", "KR"), ("US", "US"), ("MX", "MX")]

/-- `REGION_PN_MAP` of pytrends_fetch_DDONG.py lines 46-50. -/
def REGION_PN_MAP : List (String × String) :=
  [("KR", "south_korea"), ("US", "united_states"), ("MX", "mexico")]

/-- Python `dict.get(k, default)`. -/
def dictGetD : List (String × String) → String → String → String
  | [], _, dflt => dflt
  | (a, b) :: rest, k, dflt => if a = k then b else dictGetD rest k dflt

/-- The closed set accepted by `argparse` for `--region`
(`choices=["KR", "US", "MX"]` in both scripts). -/
def supportedRegions : List String := ["KR", "US", "MX"]

/-- Command-line arguments of pytrends_fetch_DDONG.py. -/
structure ArgsD where
  region : String
  days : String
  prefer_youtube : Bool
deriving DecidableEq

/-- Run-specific oracle for pytrends_fetch_DDONG.py: whether `TrendReq`
construction succeeds, the outcome of the experimental youtube network
interaction, the outcomes of the three standard tiers, and today's date
string. -/
structure EnvD where
  trendReqOk : Bool
  youtube : Except String (Option DataFrame)
  src : TrendSource
  today : String

/-- `main` of pytrends_fetch_DDONG.py (lines 186-245).  `argparse`
rejects an unsupported `--region` with exit code 2 before anything else
runs; a malformed `--days` raises an uncaught ValueError at line 193
(exit code 1) before any network activity; a `TrendReq` construction
failure reaches the outer handler (`sys.exit(1)`); otherwise the
optional youtube tier and then the standard tiers run, and the single
JSON document is printed with exit code 0. -/
def mainDDONG (args : ArgsD) (env : EnvD) : RunResult :=
  if args.region ∉ supportedRegions then
    { exitCode := 2, stdout := [], net := [] }
  else
    match pyIntParse? args.days with
    | none => { exitCode := 1, stdout := [], net := [] }
    | some days =>
        let geo := dictGetD REGION_GEO_MAP args.region "KR"
        let pn := dictGetD REGION_PN_MAP args.region "south_korea"
        if env.trendReqOk = false then
          { exitCode := 1, stdout := [], net := [] }
        else
          let ytNet : List NetCall :=
            if args.prefer_youtube then [NetCall.youtubeRelatedQueries geo days] else []
          let kws1 : List String :=
            if args.prefer_youtube then
              ytKeywordsOrEmpty (fetchYoutubeLikeKeywordsExperimental env.youtube)
            else []
          let std : List String × List NetCall :=
            if kws1.isEmpty then
              let fo := fetchTrendingKeywords env.src pn
              (fo.keywords, fo.net)
            else (kws1, [])
          let kws := std.1
          let doc : ResultDoc :=
            { region := args.region, days := days,
              items := kws.map (fun kw => Item.mk env.today kw ""),
              keywords := kws.map JVal.str }
          { exitCode := 0, stdout := [doc], net := ytNet ++ std.2 }

/-- Command-line arguments of pytrends_fetch.py. -/
structure ArgsV1 where
  region : String
  days : String
deriving DecidableEq

/-- Run-specific oracle for pytrends_fetch.py: whether `TrendReq`
construction succeeds, the outcome of
`related_queries().get('', {}).get('rising')`, and today's date. -/
structure EnvV1 where
  trendReqOk : Bool
  rising : Except String (Option DataFrame)
  today : String

/-- `row[c]` (pandas bracket access, pytrends_fetch.py lines 77-79):
raises KeyError when the label is absent, unlike `row.get`. -/
def rowGetStrict (r : Row) (c : String) : Except String PyVal :=
  match rowGet r c with
  | CellAccess.val v => Except.ok v
  | CellAccess.missing => Except.error "KeyError"
  | CellAccess.raises => Except.error "row access raised"

/-- The rising-row loop of pytrends_fetch.py (lines 76-87): each row
must supply `query` and `value` by bracket access; any failure raises
out of the loop to the outer handler.  The item carries the raw query
value and `str(value)`; note line 87 appends the whole item to
`keywords`. -/
def v1Rows (today : String) : List Row → Except String (List Item)
  | [] => Except.ok []
  | r :: rest =>
      match rowGetStrict r "query" with
      | Except.error e => Except.error e
      | Except.ok q =>
          match rowGetStrict r "value" with
          | Except.error e => Except.error e
          | Except.ok v =>
              match v1Rows today rest with
              | Except.error e => Except.error e
              | Except.ok its => Except.ok (Item.mk today q.str v.str :: its)

/-- `main` of pytrends_fetch.py (lines 39-97): same usage-error
behaviour as the DDONG variant; one `related_queries` interaction; an
absent or empty rising table leaves the document empty; otherwise each
row contributes an item, and — per line 87 — the item object itself is
appended to the `keywords` array. -/
def mainV1 (args : ArgsV1) (env : EnvV1) : RunResult :=
  if args.region ∉ supportedRegions then
    { exitCode := 2, stdout := [], net := [] }
  else
    match pyIntParse? args.days with
    | none => { exitCode := 1, stdout := [], net := [] }
    | some days =>
        let geo := dictGetD REGION_GEO_MAP args.region "KR"
        if env.trendReqOk = false then
          { exitCode := 1, stdout := [], net := [] }
        else
          let net := [NetCall.v1RelatedQueries geo args.days]
          match env.rising with
          | Except.error _ => { exitCode := 1, stdout := [], net := net }
          | Except.ok none =>
              { exitCode := 0,
                stdout := [⟨args.region, days, [], []⟩], net := net }
          | Except.ok (some df) =>
              if dfEmpty df then
                { exitCode := 0,
                  stdout := [⟨args.region, days, [], []⟩], net := net }
              else
                match v1Rows env.today df.rows with
                | Except.error _ => { exitCode := 1, stdout := [], net := net }
                | Except.ok items =>
                    { exitCode := 0,
                      stdout := [⟨args.region, days, items, items.map JVal.item⟩],
                      net := net }

/-- Spec-side description of the per-row scan when a single candidate
column is in play ("take the first non-empty value found, stringify and
trim it; skip the row if no candidate yields a usable value"), used to
compare with the code's `rowKeyword`. -/
def firstColValue (c : String) (r : Row) : Option String :=
  match rowGet r c with
  | CellAccess.val v =>
      if v.truthy = true ∧ pyStrip v.str ≠ "" then some (pyStrip v.str) else none
  | _ => none

lemma dedupGo_congr (l : List String) :
    ∀ s s', (∀ x, x ∈ s ↔ x ∈ s') → dedupGo l s = dedupGo l s' := by
  induction l with
  | nil => intro s s' _; rfl
  | cons k rest ih =>
      intro s s' h
      by_cases hk : k ∈ s
      · rw [dedupGo, if_pos hk, dedupGo, if_pos ((h k).mp hk), ih s s' h]
      · rw [dedupGo, if_neg hk, dedupGo, if_neg (fun hx => hk ((h k).mpr hx))]
        refine congrArg (k :: ·) (ih _ _ ?_)
        intro x
        simp only [List.mem_cons]
        exact or_congr Iff.rfl (h x)

lemma dedupGo_cons_seen (l : List String) :
    ∀ a s, dedupGo l (a :: s) = dedupGo (l.filter (fun x => x ≠ a)) s := by
  induction l with
  | nil => intro a s; rfl
  | cons k rest ih =>
      intro a s
      by_cases hka : k = a
      · subst hka
        rw [dedupGo, if_pos (List.mem_cons_self k s)]
        have : (k :: rest).filter (fun x => x ≠ k) = rest.filter (fun x => x ≠ k) := by
          simp [List.filter_cons]
        rw [this, ih]
      · have hfil : (k :: rest).filter (fun x => x ≠ a) =
            k :: rest.filter (fun x => x ≠ a) := by
          simp [List.filter_cons, hka]
        by_cases hks : k ∈ s
        · rw [dedupGo, if_pos (List.mem_cons_of_mem a hks), hfil, dedupGo, if_pos hks, ih]
        · have hkas : k ∉ a :: s := by
            simp only [List.mem_cons]
            rintro (h | h)
            · exact hka h
            · exact hks h
          rw [dedupGo, if_neg hkas, hfil, dedupGo, if_neg hks]
          refine congrArg (k :: ·) ?_
          calc dedupGo rest (k :: a :: s)
              = dedupGo rest (a :: k :: s) := by
                refine dedupGo_congr rest _ _ ?_
                intro x
                simp only [List.mem_cons]
                tauto
            _ = dedupGo (rest.filter (fun x => x ≠ a)) (k :: s) := ih a (k :: s)

lemma dedupKeywords_eq_specDedup : ∀ l, dedupKeywords l = specDedup l := by
  intro l
  induction l using specDedup.induct with
  | case1 => simp [dedupKeywords, dedupGo, specDedup]
  | case2 a rest ih =>
      rw [specDedup]
      show dedupGo (a :: rest) [] = a :: specDedup (rest.filter (fun x => x ≠ a))
      rw [dedupGo, if_neg (List.not_mem_nil a), dedupGo_cons_seen]
      exact congrArg (a :: ·) ih

lemma mem_dedupGo (l : List String) :
    ∀ s x, x ∈ dedupGo l s ↔ x ∈ l ∧ x ∉ s := by
  induction l with
  | nil => intro s x; simp [dedupGo]
  | cons k rest ih =>
      intro s x
      by_cases hk : k ∈ s
      · rw [dedupGo, if_pos hk, ih]
        simp only [List.mem_cons]
        constructor
        · rintro ⟨hx, hxs⟩; exact ⟨Or.inr hx, hxs⟩
        · rintro ⟨hx | hx, hxs⟩
          · exact absurd hk (hx ▸ hxs)
          · exact ⟨hx, hxs⟩
      · rw [dedupGo, if_neg hk]
        simp only [List.mem_cons, ih]
        constructor
        · rintro (rfl | ⟨hx, hxs⟩)
          · exact ⟨Or.inl rfl, hk⟩
          · exact ⟨Or.inr hx, fun hxs2 => hxs (Or.inr hxs2)⟩
        · rintro ⟨rfl | hx, hxs⟩
          · exact Or.inl rfl
          · by_cases hxk : x = k
            · exact Or.inl hxk
            · exact Or.inr ⟨hx, fun h => h.elim hxk hxs⟩

lemma dedupGo_sublist (l : List String) : ∀ s, (dedupGo l s).Sublist l := by
  induction l with
  | nil => intro s; exact List.Sublist.refl []
  | cons k rest ih =>
      intro s
      by_cases hk : k ∈ s
      · rw [dedupGo, if_pos hk]
        exact (ih s).trans (List.sublist_cons_self k rest)
      · rw [dedupGo, if_neg hk]
        exact (ih (k :: s)).cons₂ k

lemma nodup_dedupGo (l : List String) : ∀ s, (dedupGo l s).Nodup := by
  induction l with
  | nil => intro s; exact List.nodup_nil
  | cons k rest ih =>
      intro s
      by_cases hk : k ∈ s
      · rw [dedupGo, if_pos hk]; exact ih s
      · rw [dedupGo, if_neg hk]
        refine List.Nodup.cons ?_ (ih (k :: s))
        intro hmem
        exact ((mem_dedupGo rest (k :: s) k).mp hmem).2 (List.mem_cons_self k s)

lemma dedupGo_eq_self (l : List String) :
    ∀ s, l.Nodup → (∀ x ∈ l, x ∉ s) → dedupGo l s = l := by
  induction l with
  | nil => intro s _ _; rfl
  | cons k rest ih =>
      intro s hnd hdisj
      rw [dedupGo, if_neg (hdisj k (List.mem_cons_self k rest))]
      refine congrArg (k :: ·) (ih (k :: s) (List.Nodup.of_cons hnd) ?_)
      intro x hx
      simp only [List.mem_cons]
      rintro (rfl | hxs)
      · exact (List.nodup_cons.mp hnd).1 hx
      · exact hdisj x (List.mem_cons_of_mem k hx) hxs

lemma dedupKeywords_idem (l : List String) :
    dedupKeywords (dedupKeywords l) = dedupKeywords l := by
  refine dedupGo_eq_self (dedupKeywords l) [] (nodup_dedupGo l []) ?_
  intro x _
  exact List.not_mem_nil x

lemma safeExtract_some_eq_specDedup (df : DataFrame) :
    safeExtractKeywordsFromDf (some df) = specDedup (rowKeywords df) := by
  by_cases h : dfEmpty df = true
  · simp [safeExtractKeywordsFromDf, rowKeywords, h, specDedup]
  · simp [safeExtractKeywordsFromDf, rowKeywords, h, dedupKeywords_eq_specDedup]

lemma rowLoop_skip (r : Row) (c : String) (rest : List String) (kw : Option String)
    (h : rowGet r c = CellAccess.raises ∨ rowGet r c = CellAccess.missing) :
    rowLoop r (c :: rest) kw = rowLoop r rest kw := by
  rcases h with h | h <;> simp [rowLoop, h]

lemma rowLoop_all_raises (r : Row) :
    ∀ cands kw, (∀ c ∈ cands, rowGet r c = CellAccess.raises) →
      rowLoop r cands kw = kw := by
  intro cands
  induction cands with
  | nil => intro kw _; rfl
  | cons c rest ih =>
      intro kw h
      rw [rowLoop_skip r c rest kw (Or.inl (h c (List.mem_cons_self c rest)))]
      exact ih kw (fun c' hc' => h c' (List.mem_cons_of_mem c hc'))

lemma rowKeyword_all_raises (r : Row) (cands : List String)
    (h : ∀ c ∈ cands, rowGet r c = CellAccess.raises) :
    rowKeyword r cands = none := by
  simp [rowKeyword, rowLoop_all_raises r cands none h]

lemma rowKeywords_drop_bad_row (cols : List String) (rows1 rows2 : List Row) (r : Row)
    (h : ∀ c ∈ candidateCols cols, rowGet r c = CellAccess.raises) :
    rowKeywords ⟨cols, rows1 ++ r :: rows2⟩ = rowKeywords ⟨cols, rows1 ++ rows2⟩ := by
  rcases cols with _ | ⟨c0, crest⟩
  · simp [rowKeywords, dfEmpty]
  · have hfm : (rows1 ++ r :: rows2).filterMap
        (fun row => rowKeyword row (candidateCols (c0 :: crest))) =
        (rows1 ++ rows2).filterMap
        (fun row => rowKeyword row (candidateCols (c0 :: crest))) := by
      simp [List.filterMap_append, List.filterMap_cons, rowKeyword_all_raises r _ h]
    by_cases hre : (rows1 ++ rows2).isEmpty = true
    · rw [List.isEmpty_iff, List.append_eq_nil] at hre
      obtain ⟨h1, h2⟩ := hre
      subst h1; subst h2
      simp [rowKeywords, dfEmpty, rowKeyword_all_raises r _ h]
    · have hne2 : (rows1 ++ rows2).isEmpty = false := by
        exact Bool.not_eq_true _ |>.mp hre
      have hne1 : (rows1 ++ r :: rows2).isEmpty = false := by
        cases rows1 <;> simp
      simp [rowKeywords, dfEmpty, hne1, hne2, hfm]

lemma safeExtract_drop_bad_row (cols : List String) (rows1 rows2 : List Row) (r : Row)
    (h : ∀ c ∈ candidateCols cols, rowGet r c = CellAccess.raises) :
    safeExtractKeywordsFromDf (some ⟨cols, rows1 ++ r :: rows2⟩) =
      safeExtractKeywordsFromDf (some ⟨cols, rows1 ++ rows2⟩) := by
  rw [safeExtract_some_eq_specDedup, safeExtract_some_eq_specDedup,
    rowKeywords_drop_bad_row cols rows1 rows2 r h]

lemma candidateCols_no_preferred (c0 : String) (crest : List String)
    (hq : "query" ∉ c0 :: crest) (ht : "title" ∉ c0 :: crest)
    (hk : "keyword" ∉ c0 :: crest) :
    candidateCols (c0 :: crest) = [c0] := by
  simp only [List.mem_cons, not_or] at hq ht hk
  simp [candidateCols, hq.1, hq.2, ht.1, ht.2, hk.1, hk.2]

lemma rowKeyword_single (r : Row) (c : String) :
    rowKeyword r [c] = firstColValue c r := by
  rcases hg : rowGet r c with _ | _ | v
  · simp [rowKeyword, rowLoop, firstColValue, hg]
  · simp [rowKeyword, rowLoop, firstColValue, hg]
  · by_cases htr : v.truthy = true
    · by_cases hst : pyStrip v.str = ""
      · simp [rowKeyword, rowLoop, firstColValue, hg, htr, hst]
      · simp [rowKeyword, rowLoop, firstColValue, hg, htr, hst]
    · simp [rowKeyword, rowLoop, firstColValue, hg, htr]

lemma fetch_net_cases (src : TrendSource) (pn : String) :
    (fetchTrendingKeywords src pn).net ∈
      [[NetCall.realtimeTrendingSearches pn],
       [NetCall.realtimeTrendingSearches pn, NetCall.trendingSearches pn],
       [NetCall.realtimeTrendingSearches pn, NetCall.trendingSearches pn,
        NetCall.dailySearchTrends pn]] := by
  rcases h1 : tierYield src.realtime with _ | k1
  · rcases h2 : tierYield src.trending with _ | k2
    · rcases h3 : tierYield src.daily with _ | k3
      · simp [fetchTrendingKeywords, h1, h2, h3]
      · simp [fetchTrendingKeywords, h1, h2, h3]
    · simp [fetchTrendingKeywords, h1, h2]
  · simp [fetchTrendingKeywords, h1]

lemma fetch_first_tier (src : TrendSource) (pn : String) (kws : List String)
    (h1 : tierYield src.realtime = some kws) :
    fetchTrendingKeywords src pn =
      ⟨kws, "realtime_trending_searches",
       attemptLogs "realtime_trending_searches" src.realtime,
       [NetCall.realtimeTrendingSearches pn]⟩ := by
  simp [fetchTrendingKeywords, h1]

lemma fetch_second_tier (src : TrendSource) (pn : String) (e : String) (kws : List String)
    (h1 : src.realtime = TierResult.err e) (h2 : tierYield src.trending = some kws) :
    fetchTrendingKeywords src pn =
      ⟨kws, "trending_searches",
       [LogEvent.attempt "realtime_trending_searches",
        LogEvent.failure "realtime_trending_searches" e,
        LogEvent.attempt "trending_searches",
        LogEvent.success "trending_searches" kws.length],
       [NetCall.realtimeTrendingSearches pn, NetCall.trendingSearches pn]⟩ := by
  have hy1 : tierYield src.realtime = none := by rw [h1]; rfl
  rcases hs : src.trending with e2 | df
  · rw [hs] at h2; simp [tierYield] at h2
  · rw [hs] at h2
    by_cases hemp : (safeExtractKeywordsFromDf df).isEmpty = true
    · simp [tierYield, hemp] at h2
    · have hkws : safeExtractKeywordsFromDf df = kws := by
        simpa [tierYield, hemp] using h2
      have hne : kws ≠ [] := by
        rw [← hkws]
        simpa [List.isEmpty_iff] using hemp
      simp [fetchTrendingKeywords, hy1, hs, tierYield, attemptLogs, hemp, hkws, h1, hne]

lemma fetch_exhausted (src : TrendSource) (pn : String)
    (h1 : tierYield src.realtime = none) (h2 : tierYield src.trending = none)
    (h3 : tierYield src.daily = none) :
    fetchTrendingKeywords src pn =
      ⟨[], "none",
       attemptLogs "realtime_trending_searches" src.realtime ++
         attemptLogs "trending_searches" src.trending ++
         attemptLogs "daily_search_trends" src.daily,
       [NetCall.realtimeTrendingSearches pn, NetCall.trendingSearches pn,
        NetCall.dailySearchTrends pn]⟩ := by
  simp [fetchTrendingKeywords, h1, h2, h3]

/-- Claim C2 counterexample: the Defensive Row Extractor does NOT leave
duplicates in place — a keyword occurring in two rows occurs once, not
twice, in its output, because the deduplication loop is inside
`_safe_extract_keywords_from_df` itself (lines 93-100). -/
theorem c2_counterexample :
    safeExtractKeywordsFromDf
        (some ⟨["title"], [[("title", CellAccess.val ⟨"a", true⟩)],
                           [("title", CellAccess.val ⟨"a", true⟩)]]⟩) = ["a"] ∧
    safeExtractKeywordsFromDf
        (some ⟨["title"], [[("title", CellAccess.val ⟨"a", true⟩)],
                           [("title", CellAccess.val ⟨"a", true⟩)]]⟩) ≠ ["a", "a"] := by
  constructor
  · decide
  · decide

/-- Claim C2 (amended): for every DataFrame, the Defensive Row
Extractor returns the per-row keyword strings in source order with
exact duplicates removed at their first occurrence — the deduplication
happens inside the extractor itself, so its output is duplicate-free
and a sublist of the raw row-order extraction. -/
theorem c2_extractor_dedups_first_occurrence (df : DataFrame) :
    safeExtractKeywordsFromDf (some df) = specDedup (rowKeywords df) ∧
    (safeExtractKeywordsFromDf (some df)).Nodup ∧
    (safeExtractKeywordsFromDf (some df)).Sublist (rowKeywords df) ∧
    (∀ k, k ∈ safeExtractKeywordsFromDf (some df) ↔ k ∈ rowKeywords df) := by
  have hrw : safeExtractKeywordsFromDf (some df) = dedupKeywords (rowKeywords df) := by
    by_cases h : dfEmpty df = true
    · simp [safeExtractKeywordsFromDf, rowKeywords, h, dedupKeywords, dedupGo]
    · simp [safeExtractKeywordsFromDf, rowKeywords, h]
  refine ⟨?_, ?_, ?_, ?_⟩
  · rw [hrw, dedupKeywords_eq_specDedup]
  · rw [hrw]; exact nodup_dedupGo _ []
  · rw [hrw]; exact dedupGo_sublist _ []
  · intro k
    rw [hrw]
    unfold dedupKeywords
    rw [mem_dedupGo]
    simp

/-- Claim C6: the Defensive Row Extractor is total and defensive — an
absent (None) input yields `[]`, a zero-row DataFrame yields `[]`, a
raising or absent column access is treated exactly like the absence of
a value from that column, and a row whose every candidate access raises
is skipped without affecting extraction of the remaining rows. -/
theorem c6_extractor_never_raises :
    safeExtractKeywordsFromDf none = [] ∧
    (∀ df : DataFrame, df.rows = [] → safeExtractKeywordsFromDf (some df) = []) ∧
    (∀ (r : Row) (c : String) (rest : List String) (kw : Option String),
        rowGet r c = CellAccess.raises ∨ rowGet r c = CellAccess.missing →
        rowLoop r (c :: rest) kw = rowLoop r rest kw) ∧
    (∀ (cols : List String) (rows1 rows2 : List Row) (r : Row),
        (∀ c ∈ candidateCols cols, rowGet r c = CellAccess.raises) →
        safeExtractKeywordsFromDf (some ⟨cols, rows1 ++ r :: rows2⟩) =
          safeExtractKeywordsFromDf (some ⟨cols, rows1 ++ rows2⟩)) := by
  refine ⟨rfl, ?_, rowLoop_skip, safeExtract_drop_bad_row⟩
  intro df h
  simp [safeExtractKeywordsFromDf, dfEmpty, h]

/-- Witness for C6: a DataFrame holding one good row and one row whose
only candidate access raises extracts exactly what the good row alone
does. -/
theorem c6_witness :
    safeExtractKeywordsFromDf
        (some ⟨["foo"], [[("foo", CellAccess.val ⟨"kw", true⟩)],
                         [("foo", CellAccess.raises)]]⟩) =
      safeExtractKeywordsFromDf
        (some ⟨["foo"], [[("foo", CellAccess.val ⟨"kw", true⟩)]]⟩) :=
  c6_extractor_never_raises.2.2.2 ["foo"]
    [[("foo", CellAccess.val ⟨"kw", true⟩)]] [] [("foo", CellAccess.raises)]
    (by decide)

/-- Claim C8: the Deduplicator removes exact duplicates keeping each
value at its first occurrence (it coincides with the specification
recursion `specDedup`, and its output is a duplicate-free sublist of
the input with the same members), it is idempotent, and on
`["a","b","a","c","b"]` it returns `["a","b","c"]`. -/
theorem c8_deduplicator_contract :
    (∀ l : List String, dedupKeywords l = specDedup l) ∧
    (∀ l : List String, (dedupKeywords l).Sublist l ∧ (dedupKeywords l).Nodup ∧
        ∀ k, k ∈ dedupKeywords l ↔ k ∈ l) ∧
    (∀ l : List String, dedupKeywords (dedupKeywords l) = dedupKeywords l) ∧
    dedupKeywords ["a", "b", "a", "c", "b"] = ["a", "b", "c"] := by
  refine ⟨dedupKeywords_eq_specDedup, ?_, dedupKeywords_idem, by decide⟩
  intro l
  refine ⟨dedupGo_sublist l [], nodup_dedupGo l [], ?_⟩
  intro k
  unfold dedupKeywords
  rw [mem_dedupGo]
  simp

/-- Claim C9: when none of the preferred column names is present, the
candidate list degenerates to the positional first column, and the
extractor recovers, for each row, the first-column value when it is
non-empty (truthy with a non-empty trim), skipping the row otherwise. -/
theorem c9_first_column_fallback (c0 : String) (crest : List String) (rows : List Row)
    (hq : "query" ∉ c0 :: crest) (ht : "title" ∉ c0 :: crest)
    (hk : "keyword" ∉ c0 :: crest) :
    candidateCols (c0 :: crest) = [c0] ∧
    safeExtractKeywordsFromDf (some ⟨c0 :: crest, rows⟩) =
      dedupKeywords (rows.filterMap (firstColValue c0)) := by
  have hc := candidateCols_no_preferred c0 crest hq ht hk
  refine ⟨hc, ?_⟩
  have hfun : (fun r => rowKeyword r [c0]) = firstColValue c0 :=
    funext (fun r => rowKeyword_single r c0)
  rcases rows with _ | ⟨r0, rrest⟩
  · simp [safeExtractKeywordsFromDf, dfEmpty, dedupKeywords, dedupGo]
  · have hne : dfEmpty ⟨c0 :: crest, r0 :: rrest⟩ = false := by simp [dfEmpty]
    simp only [safeExtractKeywordsFromDf, hne, Bool.false_eq_true, if_false, hc, hfun]

/-- Witness for C9: a two-row table with only the unknown column
`"foo"` — the first row's padded value is trimmed and recovered, the
falsy second row is skipped. -/
theorem c9_witness :
    (candidateCols ["foo"] = ["foo"] ∧
     safeExtractKeywordsFromDf
        (some ⟨["foo"], [[("foo", CellAccess.val ⟨" kw1 ", true⟩)],
                         [("foo", CellAccess.val ⟨"", false⟩)]]⟩) =
      dedupKeywords
        ([[("foo", CellAccess.val ⟨" kw1 ", true⟩)],
          [("foo", CellAccess.val ⟨"", false⟩)]].filterMap (firstColValue "foo"))) ∧
    safeExtractKeywordsFromDf
        (some ⟨["foo"], [[("foo", CellAccess.val ⟨" kw1 ", true⟩)],
                         [("foo", CellAccess.val ⟨"", false⟩)]]⟩) = ["kw1"] :=
  ⟨c9_first_column_fallback "foo" [] _ (by decide) (by decide) (by decide), by decide⟩

/-- Claim C3: the Tiered Fetch Strategy contacts the tiers in the fixed
order realtime, daily-trending, today's historical lookup (its network
trace is always a prefix of that order); it stops at the first tier
whose extraction is non-empty and returns that list with that tier's
name; and when tier 1 raises and tier 2 yields usable rows, the error
is recorded with tier 1's name and the result is tier 2's extraction
under tier 2's name. -/
theorem c3_tiered_fetch_strategy :
    (∀ (src : TrendSource) (pn : String),
        (fetchTrendingKeywords src pn).net ∈
          [[NetCall.realtimeTrendingSearches pn],
           [NetCall.realtimeTrendingSearches pn, NetCall.trendingSearches pn],
           [NetCall.realtimeTrendingSearches pn, NetCall.trendingSearches pn,
            NetCall.dailySearchTrends pn]]) ∧
    (∀ (src : TrendSource) (pn : String) (kws : List String),
        tierYield src.realtime = some kws →
        fetchTrendingKeywords src pn =
          ⟨kws, "realtime_trending_searches",
           attemptLogs "realtime_trending_searches" src.realtime,
           [NetCall.realtimeTrendingSearches pn]⟩) ∧
    (∀ (src : TrendSource) (pn : String) (e : String) (kws : List String),
        src.realtime = TierResult.err e → tierYield src.trending = some kws →
        fetchTrendingKeywords src pn =
          ⟨kws, "trending_searches",
           [LogEvent.attempt "realtime_trending_searches",
            LogEvent.failure "realtime_trending_searches" e,
            LogEvent.attempt "trending_searches",
            LogEvent.success "trending_searches" kws.length],
           [NetCall.realtimeTrendingSearches pn, NetCall.trendingSearches pn]⟩) :=
  ⟨fetch_net_cases, fetch_first_tier, fetch_second_tier⟩

/-- Witness for C3: tier 1 raises a rate-limit-like error, tier 2
returns two usable rows of the same keyword — the result is tier 2's
(deduplicated) extraction under tier 2's name, with the failure
diagnostic carrying tier 1's name and the error. -/
theorem c3_witness :
    fetchTrendingKeywords
        ⟨TierResult.err "HTTP 429",
         TierResult.ok (some ⟨["title"],
           [[("title", CellAccess.val ⟨"Concert A", true⟩)],
            [("title", CellAccess.val ⟨"Concert A", true⟩)]]⟩),
         TierResult.ok none⟩ "south_korea" =
      ⟨["Concert A"], "trending_searches",
       [LogEvent.attempt "realtime_trending_searches",
        LogEvent.failure "realtime_trending_searches" "HTTP 429",
        LogEvent.attempt "trending_searches",
        LogEvent.success "trending_searches" 1],
       [NetCall.realtimeTrendingSearches "south_korea",
        NetCall.trendingSearches "south_korea"]⟩ :=
  c3_tiered_fetch_strategy.2.2 _ "south_korea" "HTTP 429" ["Concert A"] rfl (by decide)

/-- Claim C4: if every tier raises or extracts nothing, the strategy
returns `[]` with the sentinel source `"none"`, and the standard-path
pipeline still succeeds, writing a document with empty `items` and
empty `keywords` and exiting 0. -/
theorem c4_exhausted_tiers_still_succeed :
    (∀ (src : TrendSource) (pn : String),
        tierYield src.realtime = none → tierYield src.trending = none →
        tierYield src.daily = none →
        (fetchTrendingKeywords src pn).keywords = [] ∧
        (fetchTrendingKeywords src pn).source = "none") ∧
    (∀ (args : ArgsD) (env : EnvD) (days : Int),
        args.region ∈ supportedRegions → pyIntParse? args.days = some days →
        args.prefer_youtube = false → env.trendReqOk = true →
        tierYield env.src.realtime = none → tierYield env.src.trending = none →
        tierYield env.src.daily = none →
        (mainDDONG args env).exitCode = 0 ∧
        (mainDDONG args env).stdout = [⟨args.region, days, [], []⟩]) := by
  constructor
  · intro src pn h1 h2 h3
    rw [fetch_exhausted src pn h1 h2 h3]
    exact ⟨rfl, rfl⟩
  · intro args env days hreg hdays hyt hok h1 h2 h3
    have hfe := fetch_exhausted env.src (dictGetD REGION_PN_MAP args.region "south_korea")
      h1 h2 h3
    simp [mainDDONG, hreg, hdays, hyt, hok, hfe]

/-- Witness for C4: region KR, days 7, every tier raising — exit code 0
and the empty document. -/
theorem c4_witness :
    (mainDDONG ⟨"KR", "7", false⟩
        ⟨true, Except.ok none,
         ⟨TierResult.err "boom", TierResult.err "boom", TierResult.err "boom"⟩,
         "2026-02-03"⟩).exitCode = 0 ∧
    (mainDDONG ⟨"KR", "7", false⟩
        ⟨true, Except.ok none,
         ⟨TierResult.err "boom", TierResult.err "boom", TierResult.err "boom"⟩,
         "2026-02-03"⟩).stdout = [⟨"KR", 7, [], []⟩] :=
  c4_exhausted_tiers_still_succeed.2 ⟨"KR", "7", false⟩
    ⟨true, Except.ok none,
     ⟨TierResult.err "boom", TierResult.err "boom", TierResult.err "boom"⟩,
     "2026-02-03"⟩ 7 (by decide) (by decide) rfl rfl rfl rfl rfl

/-- Claim C5: an unsupported region is rejected by argparse with exit
code 2 and a malformed day count raises at the `int(...)` conversion
with exit code 1, in both variants; in every such case nothing is
written to stdout and no network call is attempted, so an unrecognized
region is never silently defaulted to another region's identifiers. -/
theorem c5_usage_errors_fail_before_network :
    (∀ (args : ArgsD) (env : EnvD), args.region ∉ supportedRegions →
        mainDDONG args env = ⟨2, [], []⟩) ∧
    (∀ (args : ArgsD) (env : EnvD), pyIntParse? args.days = none →
        (mainDDONG args env).exitCode ≠ 0 ∧ (mainDDONG args env).stdout = [] ∧
        (mainDDONG args env).net = []) ∧
    (∀ (args : ArgsV1) (env : EnvV1), args.region ∉ supportedRegions →
        mainV1 args env = ⟨2, [], []⟩) ∧
    (∀ (args : ArgsV1) (env : EnvV1), pyIntParse? args.days = none →
        (mainV1 args env).exitCode ≠ 0 ∧ (mainV1 args env).stdout = [] ∧
        (mainV1 args env).net = []) := by
  refine ⟨?_, ?_, ?_, ?_⟩
  · intro args env h
    simp [mainDDONG, h]
  · intro args env h
    by_cases hreg : args.region ∈ supportedRegions
    · simp [mainDDONG, hreg, h]
    · simp [mainDDONG, hreg]
  · intro args env h
    simp [mainV1, h]
  · intro args env h
    by_cases hreg : args.region ∈ supportedRegions
    · simp [mainV1, hreg, h]
    · simp [mainV1, hreg]

/-- Witness for C5: region FR is rejected with exit 2 and no output or
network, and a non-numeric day count exits non-zero with no network. -/
theorem c5_witness :
    mainDDONG ⟨"FR", "7", false⟩
        ⟨true, Except.ok none,
         ⟨TierResult.ok none, TierResult.ok none, TierResult.ok none⟩,
         "2026-02-03"⟩ = ⟨2, [], []⟩ ∧
    (mainV1 ⟨"KR", "seven"⟩ ⟨true, Except.ok none, "2026-02-03"⟩).exitCode ≠ 0 ∧
    (mainV1 ⟨"KR", "seven"⟩ ⟨true, Except.ok none, "2026-02-03"⟩).net = [] :=
  ⟨c5_usage_errors_fail_before_network.1 ⟨"FR", "7", false⟩
      ⟨true, Except.ok none,
       ⟨TierResult.ok none, TierResult.ok none, TierResult.ok none⟩,
       "2026-02-03"⟩ (by decide),
   (c5_usage_errors_fail_before_network.2.2.2 ⟨"KR", "seven"⟩
      ⟨true, Except.ok none, "2026-02-03"⟩ (by decide)).1,
   (c5_usage_errors_fail_before_network.2.2.2 ⟨"KR", "seven"⟩
      ⟨true, Except.ok none, "2026-02-03"⟩ (by decide)).2.2⟩

/-- Claim C7: the keyword-biased approximation tier runs only when
`--prefer_youtube` is given — with the flag off the run is independent
of the youtube oracle and performs no youtube network call — and when
the flag is on and the tier fails (raises, or yields an empty list),
the run produces exactly the result of the standard tiers, with only
the extra youtube network attempt prepended to the trace. -/
theorem c7_youtube_tier_opt_in_fallthrough :
    (∀ (args : ArgsD) (env : EnvD) (yt : Except String (Option DataFrame)),
        args.prefer_youtube = false →
        mainDDONG args env = mainDDONG args { env with youtube := yt } ∧
        ∀ (geo : String) (d : Int),
          NetCall.youtubeRelatedQueries geo d ∉ (mainDDONG args env).net) ∧
    (∀ (args : ArgsD) (env : EnvD) (days : Int),
        args.prefer_youtube = true →
        args.region ∈ supportedRegions → pyIntParse? args.days = some days →
        env.trendReqOk = true →
        ytKeywordsOrEmpty (fetchYoutubeLikeKeywordsExperimental env.youtube) = [] →
        (mainDDONG args env).exitCode =
          (mainDDONG { args with prefer_youtube := false } env).exitCode ∧
        (mainDDONG args env).stdout =
          (mainDDONG { args with prefer_youtube := false } env).stdout ∧
        (mainDDONG args env).net =
          NetCall.youtubeRelatedQueries (dictGetD REGION_GEO_MAP args.region "KR") days ::
            (mainDDONG { args with prefer_youtube := false } env).net) := by
  constructor
  · intro args env yt hflag
    constructor
    · by_cases hreg : args.region ∈ supportedRegions
      · rcases hdays : pyIntParse? args.days with _ | days
        · simp [mainDDONG, hreg, hdays]
        · by_cases hok : env.trendReqOk = false
          · simp [mainDDONG, hreg, hdays, hok]
          · simp [mainDDONG, hreg, hdays, hok, hflag]
      · simp [mainDDONG, hreg]
    · intro geo d
      by_cases hreg : args.region ∈ supportedRegions
      · rcases hdays : pyIntParse? args.days with _ | days
        · simp [mainDDONG, hreg, hdays]
        · by_cases hok : env.trendReqOk = false
          · simp [mainDDONG, hreg, hdays, hok]
          · have hmem := fetch_net_cases env.src
              (dictGetD REGION_PN_MAP args.region "south_korea")
            simp only [List.mem_cons, List.mem_singleton, List.not_mem_nil,
              or_false] at hmem
            rcases hmem with hm | hm | hm <;>
              simp [mainDDONG, hreg, hdays, hok, hflag, hm]
      · simp [mainDDONG, hreg]
  · intro args env days hflag hreg hdays hok hyt
    have hok' : env.trendReqOk = false ↔ False := by simp [hok]
    simp [mainDDONG, hreg, hdays, hok, hflag, hyt]

/-- Witness for C7: with the flag on and the youtube interaction
raising a 429-style error, the run equals the standard-tier run except
for the extra youtube network attempt. -/
theorem c7_witness :
    (mainDDONG ⟨"KR", "7", true⟩
        ⟨true, Except.error "ResponseError 429",
         ⟨TierResult.ok (some ⟨["title"], [[("title", CellAccess.val ⟨"A", true⟩)]]⟩),
          TierResult.ok none, TierResult.ok none⟩, "2026-02-03"⟩).exitCode =
      (mainDDONG ⟨"KR", "7", false⟩
        ⟨true, Except.error "ResponseError 429",
         ⟨TierResult.ok (some ⟨["title"], [[("title", CellAccess.val ⟨"A", true⟩)]]⟩),
          TierResult.ok none, TierResult.ok none⟩, "2026-02-03"⟩).exitCode ∧
    (mainDDONG ⟨"KR", "7", true⟩
        ⟨true, Except.error "ResponseError 429",
         ⟨TierResult.ok (some ⟨["title"], [[("title", CellAccess.val ⟨"A", true⟩)]]⟩),
          TierResult.ok none, TierResult.ok none⟩, "2026-02-03"⟩).stdout =
      (mainDDONG ⟨"KR", "7", false⟩
        ⟨true, Except.error "ResponseError 429",
         ⟨TierResult.ok (some ⟨["title"], [[("title", CellAccess.val ⟨"A", true⟩)]]⟩),
          TierResult.ok none, TierResult.ok none⟩, "2026-02-03"⟩).stdout ∧
    (mainDDONG ⟨"KR", "7", true⟩
        ⟨true, Except.error "ResponseError 429",
         ⟨TierResult.ok (some ⟨["title"], [[("title", CellAccess.val ⟨"A", true⟩)]]⟩),
          TierResult.ok none, TierResult.ok none⟩, "2026-02-03"⟩).net =
      NetCall.youtubeRelatedQueries "KR" 7 ::
        (mainDDONG ⟨"KR", "7", false⟩
          ⟨true, Except.error "ResponseError 429",
           ⟨TierResult.ok (some ⟨["title"], [[("title", CellAccess.val ⟨"A", true⟩)]]⟩),
            TierResult.ok none, TierResult.ok none⟩, "2026-02-03"⟩).net :=
  c7_youtube_tier_opt_in_fallthrough.2 ⟨"KR", "7", true⟩
    ⟨true, Except.error "ResponseError 429",
     ⟨TierResult.ok (some ⟨["title"], [[("title", CellAccess.val ⟨"A", true⟩)]]⟩),
      TierResult.ok none, TierResult.ok none⟩, "2026-02-03"⟩ 7
    rfl (by decide) (by decide) rfl rfl

/-- Claim C10: in both variants, at most one document is ever written
to stdout, and whenever the exit code is non-zero nothing at all was
written to stdout — failure is atomic with respect to the success
channel. -/
theorem c10_failure_atomic_wrt_stdout :
    (∀ (args : ArgsD) (env : EnvD),
        (mainDDONG args env).stdout.length ≤ 1 ∧
        ((mainDDONG args env).exitCode ≠ 0 → (mainDDONG args env).stdout = [])) ∧
    (∀ (args : ArgsV1) (env : EnvV1),
        (mainV1 args env).stdout.length ≤ 1 ∧
        ((mainV1 args env).exitCode ≠ 0 → (mainV1 args env).stdout = [])) := by
  constructor
  · intro args env
    by_cases hreg : args.region ∈ supportedRegions
    · rcases hdays : pyIntParse? args.days with _ | days
      · simp [mainDDONG, hreg, hdays]
      · by_cases hok : env.trendReqOk = false
        · simp [mainDDONG, hreg, hdays, hok]
        · simp [mainDDONG, hreg, hdays, hok]
    · simp [mainDDONG, hreg]
  · intro args env
    by_cases hreg : args.region ∈ supportedRegions
    · rcases hdays : pyIntParse? args.days with _ | days
      · simp [mainV1, hreg, hdays]
      · by_cases hok : env.trendReqOk = false
        · simp [mainV1, hreg, hdays, hok]
        · rcases hr : env.rising with e | rdf
          · simp [mainV1, hreg, hdays, hok, hr]
          · rcases rdf with _ | df
            · simp [mainV1, hreg, hdays, hok, hr]
            · by_cases hemp : dfEmpty df = true
              · simp [mainV1, hreg, hdays, hok, hr, hemp]
              · rcases hrows : v1Rows env.today df.rows with e | items
                · simp [mainV1, hreg, hdays, hok, hr, hemp, hrows]
                · simp [mainV1, hreg, hdays, hok, hr, hemp, hrows]
    · simp [mainV1, hreg]

/-- Witness for C10: a run of the first variant whose rising-row access
raises exits non-zero having written nothing to stdout. -/
theorem c10_witness :
    (mainV1 ⟨"KR", "7"⟩
        ⟨true, Except.ok (some ⟨["query"], [[("query", CellAccess.raises)]]⟩),
         "2026-02-03"⟩).exitCode ≠ 0 ∧
    (mainV1 ⟨"KR", "7"⟩
        ⟨true, Except.ok (some ⟨["query"], [[("query", CellAccess.raises)]]⟩),
         "2026-02-03"⟩).stdout = [] :=
  ⟨by decide,
   (c10_failure_atomic_wrt_stdout.2 ⟨"KR", "7"⟩
      ⟨true, Except.ok (some ⟨["query"], [[("query", CellAccess.raises)]]⟩),
       "2026-02-03"⟩).2 (by decide)⟩

/-- Claim C1 is violated by pytrends_fetch.py: at line 87 the whole
item object, not the keyword string, is appended to `keywords`.  On a
run with one rising row the produced document has `items` and
`keywords` of equal length, but `keywords[0]` is the item object and
differs from the keyword string of `items[0]` — while the DDONG
variant, for comparison, always stores the keyword strings. -/
theorem c1_v1_keywords_hold_items_not_strings :
    (mainV1 ⟨"KR", "7"⟩
        ⟨true, Except.ok (some ⟨["query", "value"],
          [[("query", CellAccess.val ⟨"k", true⟩),
            ("value", CellAccess.val ⟨"100", true⟩)]]⟩), "2026-02-03"⟩).stdout =
      [⟨"KR", 7, [⟨"2026-02-03", "k", "100"⟩],
        [JVal.item ⟨"2026-02-03", "k", "100"⟩]⟩] ∧
    (∀ doc ∈ (mainV1 ⟨"KR", "7"⟩
        ⟨true, Except.ok (some ⟨["query", "value"],
          [[("query", CellAccess.val ⟨"k", true⟩),
            ("value", CellAccess.val ⟨"100", true⟩)]]⟩), "2026-02-03"⟩).stdout,
      doc.items.length = doc.keywords.length ∧
      doc.keywords ≠ doc.items.map (fun it => JVal.str it.keyword)) := by
  constructor
  · decide
  · decide
